import Mathlib

/-!
Verification of the BeiHoo appointment/shift scheduling core.

Times of day are modelled as minutes since midnight (`Nat`), calendar dates
as day numbers (`Nat`), and instants (Python `datetime`) as
`date * 1440 + minutes`.  Statuses and roles are the literal strings the
Django models store.  Fallible validation (`clean` methods raising
`ValidationError`) is modelled with `Except`.
-/

namespace BeiHoo

/-- Validation outcomes raised by the `clean` methods.  `endNotAfterStart`
is the `ValidationError` for `end_time <= start_time`; `conflict s e`
carries the colliding record's time range, as the Django messages do. -/
inductive ValError where
  | endNotAfterStart : ValError
  | conflict (otherStart otherEnd : Nat) : ValError
  deriving Repr, DecidableEq

/-- A stored row of the `appointments` table, restricted to the fields the
conflict validation reads (`src/appointments/models.py`). -/
structure StoredAppt where
  pk : Nat
  practitioner : Nat
  appointment_date : Nat
  start_time : Nat
  end_time : Nat
  status : String
  deriving Repr, DecidableEq

/-- The status filter of `AppointmentForm.clean`
(`src/appointments/forms.py` line 88): `status__in=['proposed', 'pending',
'booked', 'arrived']`. -/
def formStatusFilter (s : String) : Bool :=
  s ∈ ["proposed", "pending", "booked", "arrived"]

/-- The status filter of `Appointment.clean`
(`src/appointments/models.py` line 304): `status__in=['booked', 'arrived']`. -/
def modelStatusFilter (s : String) : Bool :=
  s ∈ ["booked", "arrived"]

/-- Terminal appointment statuses (`Appointment.cancel` guard, spec §4.2). -/
def terminalApptStatus (s : String) : Bool :=
  s ∈ ["fulfilled", "cancelled", "noshow"]

/-- The overlap test of the form layer
(`src/appointments/forms.py` line 93, `src/dashboard/forms.py` line 72):
`not (end_time <= other.start_time or start_time >= other.end_time)`. -/
def overlapFormB (s e otherS otherE : Nat) : Bool :=
  !(decide (e ≤ otherS) || decide (s ≥ otherE))

/-- The overlap test of the model layer
(`src/appointments/models.py` line 308):
`self.start_time < appt.end_time and self.end_time > appt.start_time`. -/
def overlapModelB (s e otherS otherE : Nat) : Bool :=
  decide (s < otherE) && decide (e > otherS)

/-- `AppointmentForm.clean` (`src/appointments/forms.py` lines 71-98):
reject `end_time <= start_time`; then, among stored appointments of the
same practitioner and date in a non-terminal status, excluding the record
being edited (`instancePk`), raise on the first one whose time range
overlaps. -/
def appointmentFormClean (practitioner date s e : Nat)
    (instancePk : Option Nat) (db : List StoredAppt) : Except ValError Unit :=
  if e ≤ s then .error .endNotAfterStart
  else
    match (db.filter fun b =>
        b.practitioner == practitioner && b.appointment_date == date &&
          formStatusFilter b.status && decide (instancePk ≠ some b.pk)).find?
        (fun b => overlapFormB s e b.start_time b.end_time) with
    | some b => .error (.conflict b.start_time b.end_time)
    | none => .ok ()

/-- `Appointment.clean` (`src/appointments/models.py` lines 292-312): same
shape as the form clean but filtering only `booked`/`arrived` rows and
using the model-layer overlap formula. -/
def appointmentModelClean (practitioner date s e : Nat)
    (selfPk : Option Nat) (db : List StoredAppt) : Except ValError Unit :=
  if e ≤ s then .error .endNotAfterStart
  else
    match (db.filter fun b =>
        b.practitioner == practitioner && b.appointment_date == date &&
          modelStatusFilter b.status && decide (selfPk ≠ some b.pk)).find?
        (fun b => overlapModelB s e b.start_time b.end_time) with
    | some b => .error (.conflict b.start_time b.end_time)
    | none => .ok ()

/-- A stored row of the `shifts` table, restricted to the fields the
conflict validation reads (`src/dashboard/models.py`). -/
structure StoredShift where
  pk : Nat
  user : Nat
  date : Nat
  start_time : Nat
  end_time : Nat
  status : String
  deriving Repr, DecidableEq

/-- `ShiftForm.clean` (`src/dashboard/forms.py` lines 50-78): reject
`end_time <= start_time`; then, among stored shifts of the same user and
date with status `scheduled` or `confirmed`, excluding the record being
edited, raise on the first one whose raw time range overlaps.  The
comparison is on the raw clock times; no midnight normalization occurs
here. -/
def shiftFormClean (user date s e : Nat)
    (instancePk : Option Nat) (db : List StoredShift) : Except ValError Unit :=
  if e ≤ s then .error .endNotAfterStart
  else
    match (db.filter fun b =>
        b.user == user && b.date == date &&
          (b.status ∈ ["scheduled", "confirmed"] : Bool) &&
          decide (instancePk ≠ some b.pk)).find?
        (fun b => overlapFormB s e b.start_time b.end_time) with
    | some b => .error (.conflict b.start_time b.end_time)
    | none => .ok ()

/-- `Shift.get_duration` (`src/dashboard/models.py` lines 78-89), in
minutes: when `end < start` the shift crosses midnight and a day (1440
minutes) is added to the end before subtracting. -/
def shiftDurationMinutes (s e : Nat) : Nat :=
  (if e < s then e + 1440 else e) - s

/-- Modelled from the spec: the overlap comparison the spec prescribes for
shifts, normalizing each interval onto a common absolute timeline by
adding 24h (1440 minutes) to an end that is earlier than its start,
before applying the glossary overlap formula.  (The spec's words; the
source's `ShiftForm.clean` is `shiftFormClean` above.) -/
def specNormalizedShiftOverlap (s1 e1 s2 e2 : Nat) : Bool :=
  let e1n := if e1 < s1 then e1 + 1440 else e1
  let e2n := if e2 < s2 then e2 + 1440 else e2
  decide (s1 < e2n) && decide (e1n > s2)

/-- The night-shift pattern of the `create_cm_cg_shifts` management
command (`src/account/management/commands/create_cm_cg_shifts.py`):
`{'shift_type': 'night', 'start': time(23, 0), 'end': time(7, 0)}`, stored
with `status='confirmed'` through `Shift.objects.create`, which runs no
`clean` validation. -/
def cmCgNightShift (user date pk : Nat) : StoredShift :=
  { pk := pk, user := user, date := date,
    start_time := 23 * 60, end_time := 7 * 60, status := "confirmed" }

/-- The per-day store step of `create_cm_cg_shifts`: if the user already
has a shift that date, skip; otherwise `Shift.objects.create` the pattern
shift (no validation is invoked). -/
def createCmCgNightShift (user date pk : Nat) (db : List StoredShift) :
    List StoredShift :=
  if db.any (fun b => b.user == user && b.date == date) then db
  else cmCgNightShift user date pk :: db

/-- `Shift.is_current` (`src/dashboard/models.py` lines 69-76): true when
the shift's date is today and `start_time <= current_time <= end_time`
(Python's chained comparison, a closed interval on the raw clock times). -/
def is_current (sh : StoredShift) (nowDate nowTime : Nat) : Bool :=
  if sh.date == nowDate then
    decide (sh.start_time ≤ nowTime) && decide (nowTime ≤ sh.end_time)
  else false

/-- The mutable state of an `Appointment` record read and written by the
status-transition methods (`src/appointments/models.py`).  `checked_in_at`,
`completed_at` and `cancelled_at` are instants (`date * 1440 + minutes`);
`checked_in_by` is a user id. -/
structure Appt where
  status : String
  appointment_date : Nat
  start_time : Nat
  end_time : Nat
  checked_in_at : Option Nat
  checked_in_by : Option Nat
  completed_at : Option Nat
  cancelled_at : Option Nat
  cancellation_reason : String
  deriving Repr, DecidableEq

/-- `Appointment.is_past` (`src/appointments/models.py` lines 319-324):
`datetime.combine(self.appointment_date, self.end_time) < now`.  Note it
combines the date with the END time. -/
def is_past (a : Appt) (now : Nat) : Bool :=
  decide (a.appointment_date * 1440 + a.end_time < now)

/-- `Appointment.check_in` (`src/appointments/models.py` lines 348-356). -/
def check_in (a : Appt) (user now : Nat) : Bool × Appt :=
  if (a.status ∈ ["booked", "pending"] : Bool) then
    (true, { a with status := "arrived",
                    checked_in_at := some now,
                    checked_in_by := some user })
  else (false, a)

/-- `Appointment.complete` (`src/appointments/models.py` lines 358-365). -/
def complete (a : Appt) (now : Nat) : Bool × Appt :=
  if a.status == "arrived" then
    (true, { a with status := "fulfilled", completed_at := some now })
  else (false, a)

/-- `Appointment.cancel` (`src/appointments/models.py` lines 367-375). -/
def cancel (a : Appt) (reason : String) (now : Nat) : Bool × Appt :=
  if !(a.status ∈ ["fulfilled", "cancelled", "noshow"] : Bool) then
    (true, { a with status := "cancelled",
                    cancelled_at := some now,
                    cancellation_reason := reason })
  else (false, a)

/-- `Appointment.mark_no_show` (`src/appointments/models.py` lines
377-383): requires status `booked`/`pending` AND `is_past`. -/
def mark_no_show (a : Appt) (now : Nat) : Bool × Appt :=
  if (a.status ∈ ["booked", "pending"] : Bool) && is_past a now then
    (true, { a with status := "noshow" })
  else (false, a)

/-- The four status-transition methods, packaged so that a single
statement can quantify over them. -/
inductive ApptAction where
  | checkInAct (user : Nat)
  | completeAct
  | cancelAct (reason : String)
  | markNoShowAct
  deriving Repr, DecidableEq

/-- Dispatch an action to the corresponding transition method. -/
def applyAction (a : Appt) (now : Nat) : ApptAction → Bool × Appt
  | .checkInAct user => check_in a user now
  | .completeAct => complete a now
  | .cancelAct reason => cancel a reason now
  | .markNoShowAct => mark_no_show a now

/-- The guard each transition method tests (spec §4.2's legality
preconditions, read off the `if` conditions of the source methods). -/
def actionLegal (a : Appt) (now : Nat) : ApptAction → Bool
  | .checkInAct _ => a.status ∈ ["booked", "pending"]
  | .completeAct => a.status == "arrived"
  | .cancelAct _ => !(a.status ∈ ["fulfilled", "cancelled", "noshow"] : Bool)
  | .markNoShowAct => (a.status ∈ ["booked", "pending"] : Bool) && is_past a now

/-- The facts about a (viewer, patient) pair that
`ClinicalPermissionMixin.can_view_patient` and
`filter_patients_by_role` consult (`src/clinical/permissions.py`):
whether the viewer has an appointment with the patient, whether the
patient's `patient_record` names the viewer as case manager or caregiver
(false when no record exists), whether that record's status is `active`,
and the patient row's own role/activity flags. -/
structure PatientView where
  hasAppointmentWith : Bool
  caseManagerAssigned : Bool
  caregiverAssigned : Bool
  recordActive : Bool
  patientRoleIsPatient : Bool
  patientIsActive : Bool
  deriving Repr, DecidableEq

/-- `ClinicalPermissionMixin.can_view_patient`
(`src/clinical/permissions.py` lines 115-145). -/
def can_view_patient (role : String) (v : PatientView) : Bool :=
  if role == "admin" then true
  else if (role ∈ ["doctor", "therapist"] : Bool) then
    v.hasAppointmentWith || v.caseManagerAssigned
  else if role == "nurse" then v.patientRoleIsPatient && v.patientIsActive
  else if role == "case_manager" then v.caseManagerAssigned
  else if role == "caregiver" then v.caregiverAssigned
  else false

/-- The per-patient visibility predicate of
`ClinicalPermissionMixin.filter_patients_by_role`
(`src/clinical/permissions.py` lines 76-113); the final
`queryset.none()` branch is the constantly-false predicate. -/
def filter_patients_by_role (role : String) (v : PatientView) : Bool :=
  if role == "admin" then true
  else if (role ∈ ["doctor", "therapist"] : Bool) then
    v.hasAppointmentWith || v.caseManagerAssigned
  else if role == "nurse" then v.patientIsActive && v.patientRoleIsPatient
  else if role == "case_manager" then v.caseManagerAssigned && v.recordActive
  else if role == "caregiver" then v.caregiverAssigned && v.recordActive
  else false

/-- `can_edit_patient_record` (`src/clinical/permissions.py` 147-153):
only admin. -/
def can_edit_patient_record (role : String) : Bool :=
  role == "admin"

/-- `can_create_medical_record` (`src/clinical/permissions.py` 155-157). -/
def can_create_medical_record (role : String) : Bool :=
  role ∈ ["admin", "doctor", "therapist"]

/-- `can_create_rehab_plan` (`src/clinical/permissions.py` 159-161). -/
def can_create_rehab_plan (role : String) : Bool :=
  role ∈ ["admin", "therapist"]

/-- `can_record_vitals` (`src/clinical/permissions.py` 163-165). -/
def can_record_vitals (role : String) : Bool :=
  role ∈ ["admin", "nurse", "caregiver"]

/-- `can_manage_medication` (`src/clinical/permissions.py` 167-169). -/
def can_manage_medication (role : String) : Bool :=
  role ∈ ["admin", "doctor", "nurse"]

/-- `can_create_nursing_note` (`src/clinical/permissions.py` 171-173). -/
def can_create_nursing_note (role : String) : Bool :=
  role ∈ ["admin", "nurse"]

/-- `can_manage_care_plan` (`src/clinical/permissions.py` 175-177). -/
def can_manage_care_plan (role : String) : Bool :=
  role ∈ ["admin", "case_manager"]

/-- `can_create_care_record` (`src/clinical/permissions.py` 179-181). -/
def can_create_care_record (role : String) : Bool :=
  role ∈ ["admin", "caregiver"]

/-- `can_report_incident` (`src/clinical/permissions.py` 183-186). -/
def can_report_incident (role : String) : Bool :=
  role ∈ ["admin", "doctor", "therapist", "nurse", "case_manager", "caregiver"]

/-- `can_manage_equipment` (`src/clinical/permissions.py` 188-190). -/
def can_manage_equipment (role : String) : Bool :=
  role ∈ ["admin", "therapist"]

/-! ## Theorems -/

/-- C9: the overlap test used by the form layer,
`NOT (end1 <= start2 OR start1 >= end2)`, computes the same boolean as the
model-layer/glossary formula `start1 < end2 AND end1 > start2` on every
input. -/
theorem c9_overlap_tests_equivalent (s e otherS otherE : Nat) :
    overlapFormB s e otherS otherE = overlapModelB s e otherS otherE := by
  unfold overlapFormB overlapModelB
  by_cases h1 : e ≤ otherS <;> by_cases h2 : s ≥ otherE <;>
    (simp [h1, h2]; try omega)

/-- C10: `Shift.is_current` returns true only when the shift's date equals
the current date and the current time lies in the closed interval
`start_time <= now <= end_time`; consequently a shift stored with
`end_time < start_time` (cross-midnight encoding) is never current, at any
instant. -/
theorem c10_is_current_closed_interval (sh : StoredShift) (nowDate nowTime : Nat) :
    (is_current sh nowDate nowTime = true →
      sh.date = nowDate ∧ sh.start_time ≤ nowTime ∧ nowTime ≤ sh.end_time) ∧
    (sh.end_time < sh.start_time → is_current sh nowDate nowTime = false) := by
  unfold is_current
  constructor
  · intro h
    by_cases hd : sh.date == nowDate
    · simp [hd] at h
      exact ⟨by simpa using hd, h.1, h.2⟩
    · simp [hd] at h
  · intro hlt
    by_cases hd : sh.date == nowDate
    · simp [hd]
      omega
    · simp [hd]

/-- C10 witness: a concrete cross-midnight shift (23:00-07:00) is not
current even during its after-midnight portion (03:00 of the stored
date). -/
theorem c10_is_current_closed_interval_witness :
    is_current { pk := 1, user := 2, date := 10, start_time := 1380,
                 end_time := 420, status := "scheduled" } 10 180 = false :=
  (c10_is_current_closed_interval
    { pk := 1, user := 2, date := 10, start_time := 1380,
      end_time := 420, status := "scheduled" } 10 180).2 (by decide)

/-- C3: whenever a transition method is invoked in a state where its guard
fails, it returns `false` and leaves the record (in particular its status
field) unchanged; and from every terminal status (`fulfilled`,
`cancelled`, `noshow`) every transition method's guard fails. -/
theorem c3_illegal_transitions_are_noops (a : Appt) (now : Nat) (act : ApptAction) :
    (actionLegal a now act = false → applyAction a now act = (false, a)) ∧
    (terminalApptStatus a.status = true → actionLegal a now act = false) := by
  have hterm : terminalApptStatus a.status = true →
      a.status = "fulfilled" ∨ a.status = "cancelled" ∨ a.status = "noshow" := by
    intro h
    simpa [terminalApptStatus] using h
  cases act with
  | checkInAct user =>
    constructor
    · intro h
      simp only [actionLegal] at h
      simp only [applyAction, check_in, h]
      simp
    · intro h
      rcases hterm h with h' | h' | h' <;> simp [actionLegal, h']
  | completeAct =>
    constructor
    · intro h
      simp only [actionLegal] at h
      simp only [applyAction, complete, h]
      simp
    · intro h
      rcases hterm h with h' | h' | h' <;> simp [actionLegal, h']
  | cancelAct reason =>
    constructor
    · intro h
      simp only [actionLegal] at h
      simp only [applyAction, cancel, h]
      simp
    · intro h
      rcases hterm h with h' | h' | h' <;> simp [actionLegal, h']
  | markNoShowAct =>
    constructor
    · intro h
      simp only [actionLegal] at h
      simp only [applyAction, mark_no_show, h]
      simp
    · intro h
      rcases hterm h with h' | h' | h' <;> simp [actionLegal, h']

/-- C3 witness: from the terminal status `fulfilled`, `check_in` fails and
leaves the record unchanged. -/
theorem c3_illegal_transitions_are_noops_witness :
    applyAction
      { status := "fulfilled", appointment_date := 0, start_time := 540,
        end_time := 570, checked_in_at := none, checked_in_by := none,
        completed_at := none, cancelled_at := none, cancellation_reason := "" }
      600 (.checkInAct 4) =
      (false,
        { status := "fulfilled", appointment_date := 0, start_time := 540,
          end_time := 570, checked_in_at := none, checked_in_by := none,
          completed_at := none, cancelled_at := none, cancellation_reason := "" }) :=
  (c3_illegal_transitions_are_noops
    { status := "fulfilled", appointment_date := 0, start_time := 540,
      end_time := 570, checked_in_at := none, checked_in_by := none,
      completed_at := none, cancelled_at := none, cancellation_reason := "" }
    600 (.checkInAct 4)).1 (by decide)

/-- C4: from status `booked` or `pending`, `check_in(user)` returns true,
sets status `arrived`, and stamps `checked_in_by = user` and a check-in
timestamp; a second `check_in` on the result returns false and the status
remains `arrived`. -/
theorem c4_check_in (a : Appt) (user now user2 now2 : Nat)
    (h : a.status = "booked" ∨ a.status = "pending") :
    (check_in a user now).1 = true ∧
    (check_in a user now).2.status = "arrived" ∧
    (check_in a user now).2.checked_in_by = some user ∧
    (check_in a user now).2.checked_in_at = some now ∧
    (check_in (check_in a user now).2 user2 now2).1 = false ∧
    (check_in (check_in a user now).2 user2 now2).2.status = "arrived" := by
  rcases h with h | h <;> simp [check_in, h]

/-- C4 witness: a concrete booked appointment, checked in twice. -/
theorem c4_check_in_witness :
    (check_in
      { status := "booked", appointment_date := 3, start_time := 540,
        end_time := 570, checked_in_at := none, checked_in_by := none,
        completed_at := none, cancelled_at := none, cancellation_reason := "" }
      7 4860).1 = true :=
  (c4_check_in
    { status := "booked", appointment_date := 3, start_time := 540,
      end_time := 570, checked_in_at := none, checked_in_by := none,
      completed_at := none, cancelled_at := none, cancellation_reason := "" }
    7 4860 8 4870 (Or.inl rfl)).1

/-- C5: from any non-terminal status `cancel(reason)` returns true, sets
status `cancelled` and stamps the reason and a cancellation timestamp;
from any terminal status it returns false and leaves the record
unchanged. -/
theorem c5_cancel (a : Appt) (reason : String) (now : Nat) :
    (terminalApptStatus a.status = false →
      (cancel a reason now).1 = true ∧
      (cancel a reason now).2.status = "cancelled" ∧
      (cancel a reason now).2.cancellation_reason = reason ∧
      (cancel a reason now).2.cancelled_at = some now) ∧
    (terminalApptStatus a.status = true → cancel a reason now = (false, a)) := by
  constructor
  · intro h
    simp only [terminalApptStatus] at h
    simp only [cancel, h]
    simp
  · intro h
    simp only [terminalApptStatus] at h
    simp only [cancel, h]
    simp

/-- C5 witness: cancelling a fulfilled appointment fails and leaves the
record unchanged. -/
theorem c5_cancel_witness :
    cancel
      { status := "fulfilled", appointment_date := 0, start_time := 540,
        end_time := 570, checked_in_at := none, checked_in_by := none,
        completed_at := some 575, cancelled_at := none, cancellation_reason := "" }
      "sick" 600 =
      (false,
        { status := "fulfilled", appointment_date := 0, start_time := 540,
          end_time := 570, checked_in_at := none, checked_in_by := none,
          completed_at := some 575, cancelled_at := none, cancellation_reason := "" }) :=
  (c5_cancel
    { status := "fulfilled", appointment_date := 0, start_time := 540,
      end_time := 570, checked_in_at := none, checked_in_by := none,
      completed_at := some 575, cancelled_at := none, cancellation_reason := "" }
    "sick" 600).2 (by decide)

/-- A booked 09:00-09:30 appointment on day 0, used to exercise
`mark_no_show`. -/
def bookedMorningAppt : Appt :=
  { status := "booked", appointment_date := 0, start_time := 540,
    end_time := 570, checked_in_at := none, checked_in_by := none,
    completed_at := none, cancelled_at := none, cancellation_reason := "" }

/-- C6 counterexample: at 09:15 (instant 555 of day 0) the appointment is
booked and the current time is past the scheduled start (09:00), yet
`mark_no_show` returns false — because `is_past` compares the current
time against the appointment's END time (09:30), not its start. -/
theorem c6_mark_no_show_counterexample :
    bookedMorningAppt.status = "booked" ∧
    bookedMorningAppt.appointment_date * 1440 + bookedMorningAppt.start_time < 555 ∧
    (mark_no_show bookedMorningAppt 555).1 = false := by
  refine ⟨rfl, by decide, ?_⟩
  decide

/-- C6 amended: `mark_no_show` succeeds — returns true and sets the
status to `noshow` — exactly when the status is `booked` or `pending`
AND the current time is past the appointment's scheduled END (`is_past`
combines the date with `end_time`); otherwise it returns false and the
record is unchanged. -/
theorem c6_mark_no_show_amended (a : Appt) (now : Nat) :
    ((mark_no_show a now).1 = true ↔
      ((a.status = "booked" ∨ a.status = "pending") ∧
        a.appointment_date * 1440 + a.end_time < now)) ∧
    ((mark_no_show a now).1 = true → (mark_no_show a now).2.status = "noshow") ∧
    ((mark_no_show a now).1 = false → (mark_no_show a now).2 = a) := by
  have hfst : (mark_no_show a now).1 =
      ((a.status ∈ ["booked", "pending"] : Bool) && is_past a now) := by
    unfold mark_no_show
    cases hcond : ((a.status ∈ ["booked", "pending"] : Bool) && is_past a now) <;>
      simp
  refine ⟨?_, ?_, ?_⟩
  · rw [hfst]
    simp [is_past]
  · intro h
    rw [hfst] at h
    unfold mark_no_show
    rw [h]
    simp
  · intro h
    rw [hfst] at h
    unfold mark_no_show
    rw [h]
    simp

/-- C6 amended witness: at instant 600 (10:00 of day 0, past the 09:30
end) `mark_no_show` succeeds on the booked appointment and sets the
status to `noshow`. -/
theorem c6_mark_no_show_amended_witness :
    (mark_no_show bookedMorningAppt 600).1 = true ∧
    (mark_no_show bookedMorningAppt 600).2.status = "noshow" :=
  ⟨(c6_mark_no_show_amended bookedMorningAppt 600).1.mpr ⟨Or.inl rfl, by decide⟩,
   (c6_mark_no_show_amended bookedMorningAppt 600).2.1
     ((c6_mark_no_show_amended bookedMorningAppt 600).1.mpr
       ⟨Or.inl rfl, by decide⟩)⟩

/-- C1: any create or edit that would overlap a stored appointment of the
same practitioner and date in a non-terminal status (`proposed`,
`pending`, `booked`, `arrived`) is rejected by the form-layer conflict
validation, which excludes the record being edited itself (`ipk`).  The
rejection holds whatever status the incoming record carries, so in
particular when both records are non-terminal; hence stored non-terminal
appointments of one practitioner and date keep pairwise non-overlapping
half-open intervals under validated writes. -/
theorem c1_conflict_validation_rejects_overlap
    (p d s e : Nat) (ipk : Option Nat) (db : List StoredAppt) (b : StoredAppt)
    (hb : b ∈ db) (hpk : ipk ≠ some b.pk)
    (hprac : b.practitioner = p) (hdate : b.appointment_date = d)
    (hstatus : formStatusFilter b.status = true)
    (hov1 : s < b.end_time) (hov2 : b.start_time < e) :
    ∃ err, appointmentFormClean p d s e ipk db = Except.error err := by
  unfold appointmentFormClean
  by_cases he : e ≤ s
  · exact ⟨.endNotAfterStart, by rw [if_pos he]⟩
  · have hbf : b ∈ db.filter (fun b' =>
        b'.practitioner == p && b'.appointment_date == d &&
          formStatusFilter b'.status && decide (ipk ≠ some b'.pk)) := by
      rw [List.mem_filter]
      exact ⟨hb, by simp [hprac, hdate, hstatus, hpk]⟩
    have hpred : overlapFormB s e b.start_time b.end_time = true := by
      unfold overlapFormB
      simp only [Bool.not_eq_true']
      simp
      omega
    have hsome : ((db.filter (fun b' =>
        b'.practitioner == p && b'.appointment_date == d &&
          formStatusFilter b'.status && decide (ipk ≠ some b'.pk))).find?
        (fun b' => overlapFormB s e b'.start_time b'.end_time)).isSome := by
      rw [List.find?_isSome]
      exact ⟨b, hbf, hpred⟩
    rw [if_neg he]
    obtain ⟨x, hx⟩ := Option.isSome_iff_exists.mp hsome
    rw [hx]
    exact ⟨.conflict x.start_time x.end_time, rfl⟩

/-- C1 witness: the spec scenario.  Practitioner 7 is booked 09:00-09:30
on one date; a second booking 09:15-09:45 for the same practitioner and
date is rejected. -/
theorem c1_conflict_validation_rejects_overlap_witness :
    ∃ err, appointmentFormClean 7 100 555 585 none
      [{ pk := 1, practitioner := 7, appointment_date := 100,
         start_time := 540, end_time := 570, status := "booked" }] =
      Except.error err :=
  c1_conflict_validation_rejects_overlap 7 100 555 585 none
    [{ pk := 1, practitioner := 7, appointment_date := 100,
       start_time := 540, end_time := 570, status := "booked" }]
    { pk := 1, practitioner := 7, appointment_date := 100,
      start_time := 540, end_time := 570, status := "booked" }
    (List.mem_singleton.mpr rfl) (by decide) rfl rfl (by decide)
    (by decide) (by decide)

/-- C2 counterexample: with a stored scheduled shift 23:00-07:00 (user 3,
date 50), a second shift 06:30-08:00 for the same user and date is
ACCEPTED by `ShiftForm.clean` — no conflict is detected, refuting the
claimed scenario; and the spec's own normalized-timeline comparison also
reports no overlap there (`[23:00, 31:00)` vs `[06:30, 08:00)` of the
same date are disjoint), so no normalization occurs "so that" the pair
conflicts. -/
theorem c2_midnight_normalization_counterexample :
    shiftFormClean 3 50 390 480 none
      [{ pk := 1, user := 3, date := 50, start_time := 1380,
         end_time := 420, status := "scheduled" }] = Except.ok () ∧
    specNormalizedShiftOverlap 390 480 1380 420 = false := by
  exact ⟨rfl, by decide⟩

/-- C2 amended: the shift conflict check performs no midnight
normalization — it compares the raw clock times, and the 24h adjustment
for `end < start` exists only in `Shift.get_duration` (which assigns the
23:00-07:00 shift its 8-hour duration).  Consequently a stored
scheduled/confirmed shift 23:00-07:00 and a second shift 06:30-08:00 for
the same owner and date are NOT detected as conflicting: the second
shift passes validation (consistently with the absolute timeline, where
the two intervals of the same date are disjoint). -/
theorem c2_shift_conflict_raw_comparison (u d pk : Nat) (st : String)
    (hst : st = "scheduled" ∨ st = "confirmed") :
    shiftFormClean u d 390 480 none
      [{ pk := pk, user := u, date := d, start_time := 1380,
         end_time := 420, status := st }] = Except.ok () ∧
    shiftDurationMinutes 1380 420 = 480 := by
  refine ⟨?_, by decide⟩
  rcases hst with h | h <;>
    (subst h; unfold shiftFormClean; rw [if_neg (by omega)]; simp [overlapFormB])

/-- C2 amended witness: the scenario at user 3, date 50, pk 1, status
`scheduled`. -/
theorem c2_shift_conflict_raw_comparison_witness :
    shiftFormClean 3 50 390 480 none
      [{ pk := 1, user := 3, date := 50, start_time := 1380,
         end_time := 420, status := "scheduled" }] = Except.ok () ∧
    shiftDurationMinutes 1380 420 = 480 :=
  c2_shift_conflict_raw_comparison 3 50 1 "scheduled" (Or.inl rfl)

/-- C7 counterexample: the `create_cm_cg_shifts` management command
stores the night-shift pattern 23:00-07:00 through
`Shift.objects.create`, which runs no validation: the stored shift has
`end_time <= start_time`, so `end_time > start_time` does not hold for
every stored Shift and something IS stored despite `end <= start`. -/
theorem c7_end_after_start_counterexample :
    cmCgNightShift 2 9 1 ∈ createCmCgNightShift 2 9 1 [] ∧
    (cmCgNightShift 2 9 1).end_time ≤ (cmCgNightShift 2 9 1).start_time := by
  constructor
  · unfold createCmCgNightShift
    simp
  · decide

/-- C7 amended: in every validated create/edit path — `Appointment.clean`,
`AppointmentForm.clean` and `ShiftForm.clean` — an input with
`end_time <= start_time` (including zero-length intervals) raises the
end-before-start `ValidationError` before the overlap/conflict check is
reached, and the write is rejected; but shift rows stored by the bulk
paths (the `create_cm_cg_shifts` command, the Excel import) bypass this
validation, so `end_time > start_time` holds for every stored Appointment
yet not for every stored Shift. -/
theorem c7_end_not_after_start_rejected
    (p d s e : Nat) (ipk : Option Nat) (db : List StoredAppt)
    (u d2 : Nat) (ipk2 : Option Nat) (db2 : List StoredShift)
    (h : e ≤ s) :
    appointmentFormClean p d s e ipk db = Except.error ValError.endNotAfterStart ∧
    appointmentModelClean p d s e ipk db = Except.error ValError.endNotAfterStart ∧
    shiftFormClean u d2 s e ipk2 db2 = Except.error ValError.endNotAfterStart := by
  refine ⟨?_, ?_, ?_⟩
  · unfold appointmentFormClean
    rw [if_pos h]
  · unfold appointmentModelClean
    rw [if_pos h]
  · unfold shiftFormClean
    rw [if_pos h]

/-- C7 amended witness: a zero-length interval (10:00-10:00) is rejected
with the end-before-start error by all three validations. -/
theorem c7_end_not_after_start_rejected_witness :
    appointmentFormClean 7 100 600 600 none [] =
      Except.error ValError.endNotAfterStart ∧
    appointmentModelClean 7 100 600 600 none [] =
      Except.error ValError.endNotAfterStart ∧
    shiftFormClean 3 50 600 600 none [] =
      Except.error ValError.endNotAfterStart :=
  c7_end_not_after_start_rejected 7 100 600 600 none [] 3 50 none []
    (by decide)

/-- C8: the role-permission checks of `ClinicalPermissionMixin` are pure,
total functions of the role (purity and totality hold by construction in
this embedding: each is a closed Lean function of its arguments); the
`admin` role is allowed by every permission predicate (and sees every
patient), and any role outside a predicate's explicit allow-list is
denied — for the visibility checks, an unmapped role sees no patient at
all (`queryset.none()`). -/
theorem c8_role_permission_table (role : String) (v : PatientView) :
    (can_view_patient "admin" v = true ∧
      filter_patients_by_role "admin" v = true ∧
      can_edit_patient_record "admin" = true ∧
      can_create_medical_record "admin" = true ∧
      can_create_rehab_plan "admin" = true ∧
      can_record_vitals "admin" = true ∧
      can_manage_medication "admin" = true ∧
      can_create_nursing_note "admin" = true ∧
      can_manage_care_plan "admin" = true ∧
      can_create_care_record "admin" = true ∧
      can_report_incident "admin" = true ∧
      can_manage_equipment "admin" = true) ∧
    (role ∉ (["admin", "doctor", "therapist", "nurse", "case_manager",
        "caregiver"] : List String) →
      can_view_patient role v = false ∧
      filter_patients_by_role role v = false ∧
      can_report_incident role = false) ∧
    (role ≠ "admin" → can_edit_patient_record role = false) ∧
    (role ∉ (["admin", "doctor", "therapist"] : List String) →
      can_create_medical_record role = false) ∧
    (role ∉ (["admin", "therapist"] : List String) →
      can_create_rehab_plan role = false ∧ can_manage_equipment role = false) ∧
    (role ∉ (["admin", "nurse", "caregiver"] : List String) →
      can_record_vitals role = false) ∧
    (role ∉ (["admin", "doctor", "nurse"] : List String) →
      can_manage_medication role = false) ∧
    (role ∉ (["admin", "nurse"] : List String) →
      can_create_nursing_note role = false) ∧
    (role ∉ (["admin", "case_manager"] : List String) →
      can_manage_care_plan role = false) ∧
    (role ∉ (["admin", "caregiver"] : List String) →
      can_create_care_record role = false) := by
  refine ⟨?_, ?_, ?_, ?_, ?_, ?_, ?_, ?_, ?_, ?_⟩
  · refine ⟨rfl, rfl, rfl, ?_, ?_, ?_, ?_, ?_, ?_, ?_, ?_, ?_⟩ <;> decide
  · intro h
    simp only [List.mem_cons, List.mem_singleton, not_or] at h
    obtain ⟨h1, h2, h3, h4, h5, h6, -⟩ := h
    refine ⟨?_, ?_, ?_⟩
    · simp [can_view_patient, h1, h2, h3, h4, h5, h6]
    · simp [filter_patients_by_role, h1, h2, h3, h4, h5, h6]
    · simp [can_report_incident, h1, h2, h3, h4, h5, h6]
  · intro h
    simp [can_edit_patient_record, h]
  · intro h
    simp only [List.mem_cons, List.mem_singleton, not_or] at h
    obtain ⟨h1, h2, h3, -⟩ := h
    simp [can_create_medical_record, h1, h2, h3]
  · intro h
    simp only [List.mem_cons, List.mem_singleton, not_or] at h
    obtain ⟨h1, h2, -⟩ := h
    exact ⟨by simp [can_create_rehab_plan, h1, h2],
      by simp [can_manage_equipment, h1, h2]⟩
  · intro h
    simp only [List.mem_cons, List.mem_singleton, not_or] at h
    obtain ⟨h1, h2, h3, -⟩ := h
    simp [can_record_vitals, h1, h2, h3]
  · intro h
    simp only [List.mem_cons, List.mem_singleton, not_or] at h
    obtain ⟨h1, h2, h3, -⟩ := h
    simp [can_manage_medication, h1, h2, h3]
  · intro h
    simp only [List.mem_cons, List.mem_singleton, not_or] at h
    obtain ⟨h1, h2, -⟩ := h
    simp [can_create_nursing_note, h1, h2]
  · intro h
    simp only [List.mem_cons, List.mem_singleton, not_or] at h
    obtain ⟨h1, h2, -⟩ := h
    simp [can_manage_care_plan, h1, h2]
  · intro h
    simp only [List.mem_cons, List.mem_singleton, not_or] at h
    obtain ⟨h1, h2, -⟩ := h
    simp [can_create_care_record, h1, h2]

/-- C8 witness: at the unmapped role `patient` (and `researcher`-like
roles generally) every permission predicate denies, while `admin` is
allowed everywhere; instantiated with a patient-view where every
relationship fact is true, so the denial is due to the role alone. -/
theorem c8_role_permission_table_witness :
    can_view_patient "patient"
        { hasAppointmentWith := true, caseManagerAssigned := true,
          caregiverAssigned := true, recordActive := true,
          patientRoleIsPatient := true, patientIsActive := true } = false ∧
    can_view_patient "admin"
        { hasAppointmentWith := true, caseManagerAssigned := true,
          caregiverAssigned := true, recordActive := true,
          patientRoleIsPatient := true, patientIsActive := true } = true ∧
    can_edit_patient_record "patient" = false ∧
    can_create_medical_record "patient" = false ∧
    can_create_rehab_plan "patient" = false ∧
    can_record_vitals "patient" = false ∧
    can_manage_medication "patient" = false ∧
    can_create_nursing_note "patient" = false ∧
    can_manage_care_plan "patient" = false ∧
    can_create_care_record "patient" = false ∧
    can_report_incident "patient" = false ∧
    can_manage_equipment "patient" = false := by
  obtain ⟨hadmin, hvis, hedit, hmed, hrehab, hvit, hmedic, hnote, hcare,
      hrec⟩ := c8_role_permission_table "patient"
    { hasAppointmentWith := true, caseManagerAssigned := true,
      caregiverAssigned := true, recordActive := true,
      patientRoleIsPatient := true, patientIsActive := true }
  exact ⟨(hvis (by decide)).1, hadmin.1, hedit (by decide),
    hmed (by decide), (hrehab (by decide)).1, hvit (by decide),
    hmedic (by decide), hnote (by decide), hcare (by decide),
    hrec (by decide), (hvis (by decide)).2.2, (hrehab (by decide)).2⟩

end BeiHoo
